import Mathlib

/-!
Verification development for the `aldale_yt_mcp` repository (FastMCP server
bootstrap for a YouTube MCP module).

The shallow embedding below models, from `src/modules/mcp_servers/mcp_yt_server.py`:
  * the POSIX-style path arithmetic used by `resolve_cache_dir` and
    `resolve_paths` (paths as absolute/relative flags plus component lists,
    with `resolve` normalizing `.` and `..` and anchoring at a given cwd);
  * `purge_cache` over an abstract cache filesystem holding the direct
    entries of the `audio` and `transcripts` subdirectories, with per-entry
    OS failures injected via a flag and the `try/except OSError` of the
    source modelled explicitly;
  * the CLI layer: `port_type` (over a model of Python `int()` parsing),
    the `--purge-cache-days` sentinel logic of `main`, and the purge branch
    of `launch_server`;
and from `src/debug_stub.py` the `--test` choices/dispatch logic.
-/

namespace YtMcp

/-! ## String constants used by the source -/

def emptyStr : String := ""

def dotStr : String := "."

def dotDotStr : String := ".."

def slashStr : String := "/"

def tildeStr : String := "~"

def audioStr : String := "audio"

def transcriptsStr : String := "transcripts"

def cacheStr : String := "Cache"

def toolsStr : String := "tools"

def promptsStr : String := "prompts"

def resourcesStr : String := "resources"

/-! ## Path model (POSIX `pathlib.Path` fragment) -/

/-- A `pathlib.Path`: an absolute/relative flag plus the list of name
components (no leading `/` component; `.` and `..` kept verbatim until
`resolve`). -/
structure PyPath where
  isAbs : Bool
  comps : List String
deriving DecidableEq, Repr

/-- `p.parent`: drop the last component (the parent of the root is the
root, matching `pathlib`). -/
def PyPath.parent (p : PyPath) : PyPath :=
  ⟨p.isAbs, p.comps.dropLast⟩

/-- `p / name` for a plain (single-component, relative) name. -/
def PyPath.child (p : PyPath) (name : String) : PyPath :=
  ⟨p.isAbs, p.comps ++ [name]⟩

/-- One step of lexical path normalization: `.` is dropped, `..` pops the
last component (a no-op at the root), anything else is appended. -/
def normAppend (acc : List String) (c : String) : List String :=
  if c = dotStr then acc
  else if c = dotDotStr then acc.dropLast
  else acc ++ [c]

/-- Lexical normalization of a component list (eliminates `.` and `..`). -/
def normalize (cs : List String) : List String :=
  cs.foldl normAppend []

/-- `p.resolve()`: anchor a relative path at the (absolute, already
normalized) current working directory `cwd`, and normalize away `.` and
`..`. Symlink resolution is out of scope of the model. -/
def PyPath.resolve (cwd : List String) (p : PyPath) : PyPath :=
  if p.isAbs then ⟨true, normalize p.comps⟩
  else ⟨true, normalize (cwd ++ p.comps)⟩

/-- `p.expanduser()` with home directory `home`: a leading `~` component is
replaced by the home directory. -/
def PyPath.expanduser (home : PyPath) (p : PyPath) : PyPath :=
  if p.comps.head? = some tildeStr then ⟨home.isAbs, home.comps ++ p.comps.tail⟩
  else p

/-- `Path(s)` for a POSIX string: split on `/`, drop empty components,
absolute iff the string starts with `/`. -/
def parsePath (s : String) : PyPath :=
  ⟨s.startsWith slashStr, (s.splitOn slashStr).filter (fun c => c ≠ emptyStr)⟩

/-- A path is in resolved form when it is absolute and free of `.` and
`..` components. -/
def goodComps (cs : List String) : Prop :=
  ∀ c ∈ cs, c ≠ dotStr ∧ c ≠ dotDotStr

instance (cs : List String) : Decidable (goodComps cs) :=
  List.decidableBAll (fun c => c ≠ dotStr ∧ c ≠ dotDotStr) cs

def isResolved (p : PyPath) : Prop :=
  p.isAbs = true ∧ goodComps p.comps

instance (p : PyPath) : Decidable (isResolved p) :=
  inferInstanceAs (Decidable (p.isAbs = true ∧ goodComps p.comps))

/-! ## `resolve_cache_dir` and `resolve_paths` -/

/-- `resolve_cache_dir(project_dir)`.

Source:
```
if override := os.environ.get("MCP_CACHE_DIR"):
    return Path(override).expanduser().resolve()
return (project_dir / "Cache").resolve()
```
`env` is the value of `MCP_CACHE_DIR` (`none` = unset); the walrus `if`
takes the override branch exactly when the value is set and non-empty
(Python truthiness of strings). `home` and `cwd` parameterize
`expanduser`/`resolve`. -/
def resolve_cache_dir (env : Option String) (home : PyPath) (cwd : List String)
    (project_dir : PyPath) : PyPath :=
  match env with
  | some s =>
    if s = emptyStr then (project_dir.child cacheStr).resolve cwd
    else ((parsePath s).expanduser home).resolve cwd
  | none => (project_dir.child cacheStr).resolve cwd

/-- Resolved directory layout, mirroring the frozen dataclass `ServerPaths`. -/
structure ServerPaths where
  modules_dir : PyPath
  tools_dir : PyPath
  prompts_dir : PyPath
  resources_dir : PyPath
  project_dir : PyPath
  cache_dir : PyPath
deriving DecidableEq, Repr

/-- `resolve_paths(this_file)`.

Source:
```
modules_dir = this_file.parents[1].resolve()
tools_dir = (modules_dir / "tools").resolve()
prompts_dir = (modules_dir / "prompts").resolve()
resources_dir = (modules_dir / "resources").resolve()
project_dir = modules_dir.parents[1].resolve()
cache_dir = resolve_cache_dir(project_dir)
```
(`parents[1]` is the parent of the parent.) -/
def resolve_paths (env : Option String) (home : PyPath) (cwd : List String)
    (this_file : PyPath) : ServerPaths :=
  let modules_dir := (this_file.parent.parent).resolve cwd
  let tools_dir := (modules_dir.child toolsStr).resolve cwd
  let prompts_dir := (modules_dir.child promptsStr).resolve cwd
  let resources_dir := (modules_dir.child resourcesStr).resolve cwd
  let project_dir := (modules_dir.parent.parent).resolve cwd
  let cache_dir := resolve_cache_dir env home cwd project_dir
  ⟨modules_dir, tools_dir, prompts_dir, resources_dir, project_dir, cache_dir⟩

/-! ## `purge_cache` over an abstract cache filesystem -/

/-- A direct entry of a cache subdirectory. `isFile` is `path.is_file()`;
`mtime` is `path.stat().st_mtime` in seconds; `raisesOSError` injects an
`OSError` from any of `is_file`/`stat`/`unlink` on this entry. -/
structure Entry where
  name : String
  isFile : Bool
  mtime : Int
  raisesOSError : Bool
deriving DecidableEq, Repr

/-- The cache root's two conventional subdirectories; `none` means the
subdirectory does not exist (`d.exists()` is false). -/
structure CacheFS where
  audio : Option (List Entry)
  transcripts : Option (List Entry)
deriving DecidableEq, Repr

/-- Body of the per-entry `try` block:
`if path.is_file() and path.stat().st_mtime < cutoff: path.unlink(missing_ok=True)`.
Returns `ok none` when the entry is deleted, `ok (some e)` when kept, and
`error` when the OS raises. -/
def purgeEntry (cutoff : Int) (e : Entry) : Except Unit (Option Entry) :=
  if e.raisesOSError then Except.error ()
  else if e.isFile ∧ e.mtime < cutoff then Except.ok none
  else Except.ok (some e)

/-- The `try/except OSError` wrapper: an `OSError` is caught and logged and
the entry remains on disk. -/
def runTry (body : Except Unit (Option Entry)) (e : Entry) : Option Entry :=
  match body with
  | Except.ok r => r
  | Except.error _ => some e

/-- Effect of the `for path in d.iterdir()` loop on one directory listing:
the entries that remain after the purge pass. -/
def purgeDirLoop (cutoff : Int) : List Entry → List Entry
  | [] => []
  | e :: rest =>
    match runTry (purgeEntry cutoff e) e with
    | some k => k :: purgeDirLoop cutoff rest
    | none => purgeDirLoop cutoff rest

/-- `purge_cache(cache_dir, days)`: `cutoff = time.time() - days * 86_400`,
then both `audio` and `transcripts` (in that order, as in the source's
`for rel in ("audio", "transcripts")`) are swept when they exist. `now` is
`time.time()`. -/
def purge_cache (now : Int) (fs : CacheFS) (days : Int) : CacheFS :=
  let cutoff := now - days * 86400
  ⟨fs.audio.map (purgeDirLoop cutoff), fs.transcripts.map (purgeDirLoop cutoff)⟩

/-- Exception-aware rendering of the directory loop: the per-entry body may
raise, the `except OSError` inside the loop catches it, so an error can
only escape if some entry's failure were left uncaught. -/
def purgeDirE (cutoff : Int) : List Entry → Except Unit (List Entry)
  | [] => Except.ok []
  | e :: rest =>
    let kept := runTry (purgeEntry cutoff e) e
    match purgeDirE cutoff rest with
    | Except.error u => Except.error u
    | Except.ok tail =>
      match kept with
      | some k => Except.ok (k :: tail)
      | none => Except.ok tail

def purgeOptDirE (cutoff : Int) : Option (List Entry) → Except Unit (Option (List Entry))
  | none => Except.ok none
  | some es =>
    match purgeDirE cutoff es with
    | Except.error u => Except.error u
    | Except.ok l => Except.ok (some l)

/-- Exception-aware rendering of `purge_cache`: any uncaught `OSError`
would propagate to the caller as `Except.error`. -/
def purgeCacheE (now : Int) (fs : CacheFS) (days : Int) : Except Unit CacheFS :=
  let cutoff := now - days * 86400
  match purgeOptDirE cutoff fs.audio with
  | Except.error u => Except.error u
  | Except.ok a2 =>
    match purgeOptDirE cutoff fs.transcripts with
    | Except.error u => Except.error u
    | Except.ok t2 => Except.ok ⟨a2, t2⟩

/-- Keep-predicate realized by the loop body: an entry survives the sweep
iff its check raises (caught) or it is not a regular file older than the
cutoff. -/
def keepB (cutoff : Int) (e : Entry) : Bool :=
  if e.raisesOSError then true
  else if e.isFile ∧ e.mtime < cutoff then false
  else true

/-! ## CLI layer: `main`, `launch_server`, `port_type` -/

/-- Sentinel logic of `main`:
`purge_days = None if args.purge_cache_days < 0 else args.purge_cache_days`. -/
def mainPurgeDays (purge_cache_days : Int) : Option Int :=
  if purge_cache_days < 0 then none else some purge_cache_days

/-- Cache-filesystem effect of `launch_server(host, port, purge_days)`
before the listener starts: `if purge_days is not None: purge_cache(...)`.
Server creation, registration and `mcp.run` do not touch the cache tree. -/
def launch_server_fs (host : String) (port : Int) (purge_days : Option Int)
    (now : Int) (fs : CacheFS) : CacheFS :=
  match purge_days with
  | none => fs
  | some d => purge_cache now fs d

/-- Cache-filesystem effect of `main` for given parsed flag values. -/
def main_fs (host : String) (port : Int) (purge_cache_days : Int)
    (now : Int) (fs : CacheFS) : CacheFS :=
  launch_server_fs host port (mainPurgeDays purge_cache_days) now fs

/-- ASCII whitespace as stripped by Python `int()` (space, tab, LF, VT,
FF, CR). -/
def isWsCh (c : Char) : Bool :=
  c.toNat = 32 || c.toNat = 9 || c.toNat = 10 || c.toNat = 11 ||
    c.toNat = 12 || c.toNat = 13

def trimChars (cs : List Char) : List Char :=
  ((cs.dropWhile isWsCh).reverse.dropWhile isWsCh).reverse

def isDigitCh (c : Char) : Bool := 48 ≤ c.toNat && c.toNat ≤ 57

def digitVal (c : Char) : Nat := c.toNat - 48

def parseDigits (cs : List Char) : Option Nat :=
  if !cs.isEmpty && cs.all isDigitCh then
    some (cs.foldl (fun a c => a * 10 + digitVal c) 0)
  else none

/-- Model of Python `int(s)` on decimal strings: optional surrounding
whitespace, optional sign (codepoints 45 `-` and 43 `+`), then a
non-empty digit run; `none` models the `ValueError` branch. -/
def pyInt (s : String) : Option Int :=
  match trimChars s.data with
  | [] => none
  | c :: rest =>
    if c.toNat = 45 then (parseDigits rest).map (fun n => -(n : Int))
    else if c.toNat = 43 then (parseDigits rest).map (fun n => (n : Int))
    else (parseDigits (c :: rest)).map (fun n => (n : Int))

def portMsgNotInt : String := "Port must be an integer"

def portMsgRange : String := "Port number must be between 1 and 65535"

/-- Result of `port_type`: either the validated port or an
`argparse.ArgumentTypeError` (argparse renders it as a user-facing CLI
error). Totality of the function models that no other exception escapes:
the `ValueError` from `int` is caught and re-raised as the typed error. -/
inductive PortResult where
  | ok (port : Int)
  | argTypeError (msg : String)
deriving DecidableEq, Repr

def PortResult.isErr : PortResult → Bool
  | PortResult.ok _ => false
  | PortResult.argTypeError _ => true

/-- `port_type(value)`:
```
try: port = int(value)
except ValueError: raise ArgumentTypeError(...)
if not 1 <= port <= 65_535: raise ArgumentTypeError(...)
return port
``` -/
def port_type (value : String) : PortResult :=
  match pyInt value with
  | none => PortResult.argTypeError (portMsgNotInt ++ value)
  | some port =>
    if 1 ≤ port ∧ port ≤ 65535 then PortResult.ok port
    else PortResult.argTypeError (portMsgRange ++ toString port)

/-! ## `debug_stub` -/

/-- The three values accepted by `--test` (note the underscore in the
first) and the string of the first `match` case (note the hyphen). -/
def choiceServer : String := "mcp_yt-server"

def caseServer : String := "mcp-yt-server"

def choiceClient : String := "universal-client"

def choiceSearch : String := "yt-search"

/-- ASCII lowercase of one character (`str.lower` restricted to the ASCII
range, which covers every `--test` value). -/
def lowerCh (c : Char) : Char :=
  if 65 ≤ c.toNat ∧ c.toNat ≤ 90 then Char.ofNat (c.toNat + 32) else c

def strLower (s : String) : String := ⟨s.data.map lowerCh⟩

/-- Observable outcome of `debug_stub`: which external routine is invoked,
or that the Python `match` fell through every case and the stub returned
without doing anything, or that argparse printed usage and exited with
status 2 (missing required `--test` or a value outside `choices`). -/
inductive DebugAction where
  | serverMain
  | clientRun
  | searchTest
  | fallThrough
  | argparseError
deriving DecidableEq, Repr

/-- `debug_stub()` for a given `--test` value (`none` = flag absent).
`type=str.lower` is applied before the `choices` membership test; the
subsequent `match args.test` has cases `"mcp-yt-server"`,
`"universal-client"`, `"yt-search"` and no default. The explicit
`len(sys.argv) == 1` help branch sits after `parse_args()` and is
unreachable because `--test` is `required`. -/
def debug_stub (testArg : Option String) : DebugAction :=
  match testArg with
  | none => DebugAction.argparseError
  | some v =>
    let lv := strLower v
    if lv = choiceServer ∨ lv = choiceClient ∨ lv = choiceSearch then
      if lv = caseServer then DebugAction.serverMain
      else if lv = choiceClient then DebugAction.clientRun
      else if lv = choiceSearch then DebugAction.searchTest
      else DebugAction.fallThrough
    else DebugAction.argparseError

/-! ## Helper lemmas -/

lemma runTry_purgeEntry (cutoff : Int) (e : Entry) :
    runTry (purgeEntry cutoff e) e = if keepB cutoff e then some e else none := by
  unfold runTry purgeEntry keepB
  split_ifs <;> simp_all

lemma purgeDirLoop_eq_filter (cutoff : Int) (es : List Entry) :
    purgeDirLoop cutoff es = es.filter (keepB cutoff) := by
  induction es with
  | nil => rfl
  | cons e rest ih =>
    rw [purgeDirLoop, runTry_purgeEntry, List.filter_cons]
    by_cases h : keepB cutoff e = true
    · simp [h, ih]
    · simp [h, ih]

lemma mem_purgeDirLoop (cutoff : Int) (e : Entry) (es : List Entry) :
    e ∈ purgeDirLoop cutoff es ↔ e ∈ es ∧ keepB cutoff e = true := by
  rw [purgeDirLoop_eq_filter, List.mem_filter]

lemma purgeDirE_eq (cutoff : Int) (es : List Entry) :
    purgeDirE cutoff es = Except.ok (purgeDirLoop cutoff es) := by
  induction es with
  | nil => rfl
  | cons e rest ih =>
    rw [purgeDirE, purgeDirLoop, ih]
    cases runTry (purgeEntry cutoff e) e <;> rfl

lemma purgeOptDirE_eq (cutoff : Int) (o : Option (List Entry)) :
    purgeOptDirE cutoff o = Except.ok (o.map (purgeDirLoop cutoff)) := by
  cases o with
  | none => rfl
  | some es => rw [purgeOptDirE, purgeDirE_eq]; rfl

lemma purgeCacheE_eq (now : Int) (fs : CacheFS) (days : Int) :
    purgeCacheE now fs days = Except.ok (purge_cache now fs days) := by
  simp only [purgeCacheE, purge_cache, purgeOptDirE_eq]

lemma foldl_normAppend_of_good (cs : List String) (h : goodComps cs) :
    ∀ acc, List.foldl normAppend acc cs = acc ++ cs := by
  induction cs with
  | nil => intro acc; simp
  | cons c rest ih =>
    intro acc
    have hc := h c (List.mem_cons_self c rest)
    have hrest : goodComps rest := fun x hx => h x (List.mem_cons_of_mem c hx)
    rw [List.foldl_cons, normAppend, if_neg hc.1, if_neg hc.2, ih hrest]
    simp

lemma normalize_of_good (cs : List String) (h : goodComps cs) : normalize cs = cs := by
  rw [normalize, foldl_normAppend_of_good cs h]
  simp

lemma goodComps_dropLast (cs : List String) (h : goodComps cs) :
    goodComps cs.dropLast :=
  fun c hc => h c (cs.dropLast_sublist.subset hc)

lemma goodComps_foldl (cs : List String) :
    ∀ acc, goodComps acc → goodComps (List.foldl normAppend acc cs) := by
  induction cs with
  | nil => intro acc hacc; simpa using hacc
  | cons c rest ih =>
    intro acc hacc
    rw [List.foldl_cons]
    apply ih
    unfold normAppend
    split_ifs with h1 h2
    · exact hacc
    · exact goodComps_dropLast acc hacc
    · intro x hx
      rcases List.mem_append.mp hx with hx | hx
      · exact hacc x hx
      · have : x = c := List.mem_singleton.mp hx
        exact this ▸ ⟨h1, h2⟩

lemma goodComps_normalize (cs : List String) : goodComps (normalize cs) :=
  goodComps_foldl cs [] (fun c hc => absurd hc (List.not_mem_nil c))

lemma resolve_isResolved (cwd : List String) (p : PyPath) :
    isResolved (p.resolve cwd) := by
  unfold PyPath.resolve
  split_ifs <;> exact ⟨rfl, goodComps_normalize _⟩

lemma resolve_of_resolved (cwd : List String) (p : PyPath) (h : isResolved p) :
    p.resolve cwd = p := by
  obtain ⟨habs, hgood⟩ := h
  unfold PyPath.resolve
  rw [if_pos habs, normalize_of_good p.comps hgood]
  cases p with
  | mk a c => simp at habs; rw [habs]

lemma isResolved_parent (p : PyPath) (h : isResolved p) : isResolved p.parent :=
  ⟨h.1, goodComps_dropLast p.comps h.2⟩

lemma isResolved_child (p : PyPath) (c : String) (h : isResolved p)
    (hc1 : c ≠ dotStr) (hc2 : c ≠ dotDotStr) : isResolved (p.child c) := by
  refine ⟨h.1, fun x hx => ?_⟩
  rcases List.mem_append.mp hx with hx | hx
  · exact h.2 x hx
  · have : x = c := List.mem_singleton.mp hx
    exact this ▸ ⟨hc1, hc2⟩

lemma resolve_cache_dir_isResolved (env : Option String) (home : PyPath)
    (cwd : List String) (pd : PyPath) :
    isResolved (resolve_cache_dir env home cwd pd) := by
  cases env with
  | none => exact resolve_isResolved cwd _
  | some s =>
    simp only [resolve_cache_dir]
    split_ifs <;> exact resolve_isResolved cwd _

/-! ## Concrete fixtures -/

def hostDefault : String := "127.0.0.1"

def oneStr : String := "1"

def maxPortStr : String := "65535"

def zeroStr : String := "0"

def overPortStr : String := "65536"

def abcStr : String := "abc"

def overrideW : String := "~/mycache"

def homeW : PyPath := ⟨true, [r"home", r"mark"]⟩

def pdW : PyPath := ⟨true, [r"home", r"mark", r"proj"]⟩

def fileW : PyPath :=
  ⟨true, [r"repo", r"src", r"modules", r"mcp_servers", r"mcp_yt_server.py"]⟩

def eOldW : Entry := ⟨r"t_old.json", true, 0, false⟩

def eNewW : Entry := ⟨r"t_new.json", true, 300000, false⟩

def eBadW : Entry := ⟨r"t_bad.json", true, 0, true⟩

def eAudioW : Entry := ⟨r"clip.mp3", true, 0, false⟩

def fsW : CacheFS := ⟨some [eAudioW], some [eOldW, eNewW]⟩

/-! ## Claim theorems -/

/-- C1: refuted by the code. `purge_cache` iterates over both `audio` and
`transcripts` (`for rel in ("audio", "transcripts")`), so an old regular
file in the `audio` subdirectory IS removed: with one audio file of
mtime 0, `now` at 10 days and a 7-day window, the audio listing becomes
empty, contradicting the claim (and the source's own comment) that audio
contents are never touched. -/
theorem purge_cache_removes_old_audio_file :
    (purge_cache 864000 ⟨some [eAudioW], some []⟩ 7).audio = some [] ∧
    eAudioW.mtime ≤ 864000 := by
  constructor
  · rfl
  · decide

/-- C2: for every retention window `d ≥ 0`, purging a cache whose
`transcripts` subdirectory exists sweeps it: every regular file there
whose mtime is older than `now − d·86400` is removed and every one newer
is retained (for entries whose OS checks do not raise). -/
theorem purge_transcripts_retention (now d : Int) (hd : 0 ≤ d) (fs : CacheFS)
    (es : List Entry) (hT : fs.transcripts = some es) (e : Entry) (he : e ∈ es)
    (hf : e.isFile = true) (hok : e.raisesOSError = false) :
    (purge_cache now fs d).transcripts = some (purgeDirLoop (now - d * 86400) es) ∧
    (e.mtime < now - d * 86400 → e ∉ purgeDirLoop (now - d * 86400) es) ∧
    (now - d * 86400 < e.mtime → e ∈ purgeDirLoop (now - d * 86400) es) := by
  refine ⟨by simp [purge_cache, hT], ?_, ?_⟩
  · intro hold hmem
    rw [mem_purgeDirLoop] at hmem
    have hk := hmem.2
    simp [keepB, hok, hf, hold] at hk
  · intro hnew
    rw [mem_purgeDirLoop]
    refine ⟨he, ?_⟩
    simp [keepB, hok, hf]
    omega

/-- Witness for C2: concrete purge at now = 10 days, window = 7 days, one
old and one new transcript file. -/
theorem purge_transcripts_retention_witness :
    eOldW ∉ purgeDirLoop (864000 - 7 * 86400) [eOldW, eNewW] ∧
    eNewW ∈ purgeDirLoop (864000 - 7 * 86400) [eOldW, eNewW] := by
  constructor
  · exact (purge_transcripts_retention 864000 7 (by decide) fsW [eOldW, eNewW] rfl
      eOldW (by decide) rfl rfl).2.1 (by decide)
  · exact (purge_transcripts_retention 864000 7 (by decide) fsW [eOldW, eNewW] rfl
      eNewW (by decide) rfl rfl).2.2 (by decide)

/-- C3: a negative `--purge-cache-days` value is mapped to `None` by
`main`, and `launch_server` then skips `purge_cache`, so startup performs
no mutation of the cache tree before the listener starts. -/
theorem main_negative_days_no_mutation (host : String) (port : Int)
    (purge_cache_days : Int) (hneg : purge_cache_days < 0)
    (now : Int) (fs : CacheFS) :
    main_fs host port purge_cache_days now fs = fs := by
  unfold main_fs mainPurgeDays launch_server_fs
  rw [if_pos hneg]

/-- Witness for C3 at `--purge-cache-days -1`. -/
theorem main_negative_days_no_mutation_witness :
    main_fs hostDefault 8085 (-1) 864000 fsW = fsW :=
  main_negative_days_no_mutation hostDefault 8085 (-1) (by decide) 864000 fsW

/-- C4: `resolve_cache_dir` returns the tilde-expanded, resolved override
when `MCP_CACHE_DIR` is set to a non-empty value, and the resolved
`<project_root>/Cache` when it is unset; both results are absolute and in
resolved form. -/
theorem resolve_cache_dir_spec (s : String) (hs : s ≠ emptyStr) (home : PyPath)
    (cwd : List String) (pd : PyPath) :
    resolve_cache_dir (some s) home cwd pd
      = ((parsePath s).expanduser home).resolve cwd ∧
    resolve_cache_dir none home cwd pd = (pd.child cacheStr).resolve cwd ∧
    isResolved (resolve_cache_dir (some s) home cwd pd) ∧
    isResolved (resolve_cache_dir none home cwd pd) := by
  refine ⟨?_, rfl, resolve_cache_dir_isResolved _ _ _ _,
    resolve_cache_dir_isResolved _ _ _ _⟩
  simp only [resolve_cache_dir]
  rw [if_neg hs]

/-- Witness for C4 with override `~/mycache`. -/
theorem resolve_cache_dir_spec_witness :
    resolve_cache_dir (some overrideW) homeW [] pdW
      = ((parsePath overrideW).expanduser homeW).resolve [] :=
  (resolve_cache_dir_spec overrideW (by decide) homeW [] pdW).1

/-- C5: `port_type` accepts the boundary values 1 and 65535, rejects 0 and
65536, and rejects every input on which `int()` fails, always via the
typed argparse error (the function is total: no other exception result
exists). -/
theorem port_type_spec :
    port_type oneStr = PortResult.ok 1 ∧
    port_type maxPortStr = PortResult.ok 65535 ∧
    (port_type zeroStr).isErr = true ∧
    (port_type overPortStr).isErr = true ∧
    ∀ v : String, pyInt v = none → (port_type v).isErr = true := by
  refine ⟨by decide, by decide, by decide, by decide, ?_⟩
  intro v hv
  simp [port_type, hv, PortResult.isErr]

/-- Witness for C5 on the non-numeric input "abc". -/
theorem port_type_spec_witness : (port_type abcStr).isErr = true :=
  port_type_spec.2.2.2.2 abcStr (by decide)

/-- C6: refuted by the code. The accepted `--test` value `mcp_yt-server`
(underscore, from `choices`) matches no case of the `match` statement
(whose first case is `mcp-yt-server`, hyphen), so it falls through and no
routine is invoked; the other two accepted values do dispatch, and a
missing `--test` is an argparse usage error (usage printed, exit status
2). -/
theorem debug_stub_dispatch_eval :
    debug_stub (some choiceServer) = DebugAction.fallThrough ∧
    debug_stub (some choiceClient) = DebugAction.clientRun ∧
    debug_stub (some choiceSearch) = DebugAction.searchTest ∧
    debug_stub none = DebugAction.argparseError := by
  decide

/-- C7: the `try/except OSError` sits inside the per-file loop, so the
exception-aware purge always returns `ok` — never an OS error to the
caller — with exactly the total purge result, and an entry whose check
raises is kept (logged) while the remaining entries are still processed. -/
theorem purge_cache_never_raises (now days : Int) (fs : CacheFS) :
    purgeCacheE now fs days = Except.ok (purge_cache now fs days) ∧
    ∀ (cutoff : Int) (e : Entry) (es : List Entry), e.raisesOSError = true →
      purgeDirLoop cutoff (e :: es) = e :: purgeDirLoop cutoff es := by
  refine ⟨purgeCacheE_eq now fs days, ?_⟩
  intro cutoff e es hraise
  have hk : keepB cutoff e = true := by simp [keepB, hraise]
  simp [purgeDirLoop, runTry_purgeEntry, hk]

/-- Witness for C7: a concrete purge and a concrete raising entry. -/
theorem purge_cache_never_raises_witness :
    purgeCacheE 864000 fsW 7 = Except.ok (purge_cache 864000 fsW 7) ∧
    purgeDirLoop 0 (eBadW :: []) = eBadW :: purgeDirLoop 0 [] :=
  ⟨(purge_cache_never_raises 864000 7 fsW).1,
   (purge_cache_never_raises 864000 7 fsW).2 0 eBadW [] rfl⟩

/-- C8: `resolve_paths` makes the modules directory the parent of the
parent of the bootstrap file, tools/prompts/resources its fixed-name
children, the project root two levels above the modules directory, and
all six paths (cache root included) absolute and resolved. -/
theorem resolve_paths_layout (env : Option String) (home : PyPath)
    (cwd : List String) (f : PyPath) (habs : f.isAbs = true)
    (hgood : goodComps f.comps) :
    (resolve_paths env home cwd f).modules_dir = f.parent.parent ∧
    (resolve_paths env home cwd f).tools_dir
      = (resolve_paths env home cwd f).modules_dir.child toolsStr ∧
    (resolve_paths env home cwd f).prompts_dir
      = (resolve_paths env home cwd f).modules_dir.child promptsStr ∧
    (resolve_paths env home cwd f).resources_dir
      = (resolve_paths env home cwd f).modules_dir.child resourcesStr ∧
    (resolve_paths env home cwd f).project_dir
      = (resolve_paths env home cwd f).modules_dir.parent.parent ∧
    isResolved (resolve_paths env home cwd f).modules_dir ∧
    isResolved (resolve_paths env home cwd f).tools_dir ∧
    isResolved (resolve_paths env home cwd f).prompts_dir ∧
    isResolved (resolve_paths env home cwd f).resources_dir ∧
    isResolved (resolve_paths env home cwd f).project_dir ∧
    isResolved (resolve_paths env home cwd f).cache_dir := by
  have hfres : isResolved f := ⟨habs, hgood⟩
  have hppres : isResolved f.parent.parent :=
    isResolved_parent _ (isResolved_parent _ hfres)
  simp only [resolve_paths]
  rw [resolve_of_resolved cwd _ hppres]
  have hch : ∀ c : String, c ≠ dotStr → c ≠ dotDotStr →
      PyPath.resolve cwd ((f.parent.parent).child c) = (f.parent.parent).child c :=
    fun c h1 h2 => resolve_of_resolved cwd _ (isResolved_child _ _ hppres h1 h2)
  refine ⟨rfl, hch toolsStr (by decide) (by decide),
    hch promptsStr (by decide) (by decide),
    hch resourcesStr (by decide) (by decide),
    resolve_of_resolved cwd _ (isResolved_parent _ (isResolved_parent _ hppres)),
    hppres, ?_, ?_, ?_, ?_, resolve_cache_dir_isResolved _ _ _ _⟩
  · rw [hch toolsStr (by decide) (by decide)]
    exact isResolved_child _ _ hppres (by decide) (by decide)
  · rw [hch promptsStr (by decide) (by decide)]
    exact isResolved_child _ _ hppres (by decide) (by decide)
  · rw [hch resourcesStr (by decide) (by decide)]
    exact isResolved_child _ _ hppres (by decide) (by decide)
  · exact resolve_isResolved cwd _

/-- Witness for C8 on a concrete bootstrap-file location. -/
theorem resolve_paths_layout_witness :
    (resolve_paths none homeW [] fileW).modules_dir = fileW.parent.parent ∧
    isResolved (resolve_paths none homeW [] fileW).cache_dir := by
  constructor
  · exact (resolve_paths_layout none homeW [] fileW rfl (by decide)).1
  · exact (resolve_paths_layout none homeW [] fileW rfl
      (by decide)).2.2.2.2.2.2.2.2.2.2

/-- C9: `purge_cache` itself does not implement the disable sentinel: with
`days < 0` the cutoff lies in the future, so every regular, non-raising
entry of the `audio` or `transcripts` listing whose mtime is not in the
future is deleted; the sentinel mapping to `None` lives only in `main`. -/
theorem purge_cache_negative_days (now d : Int) (hd : d < 0) (fs : CacheFS)
    (es : List Entry) (e : Entry) (he : e ∈ es) (hf : e.isFile = true)
    (hok : e.raisesOSError = false) (hm : e.mtime ≤ now) :
    e ∉ purgeDirLoop (now - d * 86400) es ∧
    (fs.audio = some es → (purge_cache now fs d).audio
        = some (purgeDirLoop (now - d * 86400) es)) ∧
    (fs.transcripts = some es → (purge_cache now fs d).transcripts
        = some (purgeDirLoop (now - d * 86400) es)) ∧
    mainPurgeDays d = none := by
  refine ⟨?_, ?_, ?_, by simp [mainPurgeDays, hd]⟩
  · intro hmem
    rw [mem_purgeDirLoop] at hmem
    have hk := hmem.2
    have hcut : e.mtime < now - d * 86400 := by omega
    simp [keepB, hok, hf, hcut] at hk
  · intro hA
    simp [purge_cache, hA]
  · intro hT
    simp [purge_cache, hT]

/-- Witness for C9 at days = −1 on a concrete audio file. -/
theorem purge_cache_negative_days_witness :
    eAudioW ∉ purgeDirLoop (864000 - (-1) * 86400) [eAudioW] ∧
    mainPurgeDays (-1) = none := by
  have h := purge_cache_negative_days 864000 (-1) (by decide) fsW [eAudioW]
    eAudioW (by decide) rfl rfl (by decide)
  exact ⟨h.1, h.2.2.2⟩

/-- C10: an empty `MCP_CACHE_DIR` value is falsy in the walrus test of
`resolve_cache_dir`, so it behaves exactly as if the variable were unset,
returning the resolved `<project_root>/Cache`. -/
theorem resolve_cache_dir_empty_env (home : PyPath) (cwd : List String)
    (pd : PyPath) :
    resolve_cache_dir (some emptyStr) home cwd pd
      = resolve_cache_dir none home cwd pd ∧
    resolve_cache_dir (some emptyStr) home cwd pd
      = (pd.child cacheStr).resolve cwd := by
  constructor <;> rfl

end YtMcp
